import Mathlib

/-!
Verification of the Amazon Prime streaming dashboard (`app.py`).

The program loads two CSV files (`data/titles.csv`, `data/credits.csv`) into
pandas DataFrames (memoized by `st.cache_data`), then dispatches on a sidebar
selection to one of eight view branches, each computing a small aggregation
(value counts, histogram data, Pearson correlation matrix, top-20 counts) and
sending it to the rendering layer.

The embedding below models:
  * a titles row / credits row as a structure of the columns the program reads
    (missing CSV cells are `Option.none`);
  * `Series.value_counts()` (default `dropna=True`, `sort=True` descending) as
    `valueCounts` / `valueCountsOpt`: distinct keys in first-occurrence order,
    each paired with its occurrence count, stably sorted by count descending;
  * the cached loader `load_data` as explicit state passing: the cache cell of
    `st.cache_data` plus a counter of file reads, with `pd.read_csv` as a
    fallible read from a file-system snapshot;
  * the view dispatch as a total function from (selected section, selected
    role, loaded tables) to the rendered output, threading the table state
    so frame properties can be stated;
  * `DataFrame.corr()` (Pearson, `ddof = 1` normalisation cancelling in the
    quotient) over exact rationals, with the real-valued entries
    `cov / (√var · √var)`; pandas' float NaN (division by zero) corresponds
    to Lean's division-by-zero convention (result 0): in both semantics a
    degenerate diagonal entry is not 1.
-/

/-- One row of `data/titles.csv`, restricted to the columns `app.py` reads.
A `none` models a missing (NaN) cell. Numeric cells are exact rationals. -/
structure Title where
  id : String
  type : Option String
  primary_genre : Option String
  release_year : Option Int
  imdb_score : Option ℚ
  imdb_votes : Option ℚ
  tmdb_score : Option ℚ
  tmdb_popularity : Option ℚ
deriving DecidableEq, Repr

/-- One row of `data/credits.csv`, restricted to the columns `app.py` reads. -/
structure Credit where
  person_id : String
  name : String
  role : String
deriving DecidableEq, Repr

/-- The distinct values of a list in order of first occurrence: the key order
produced by pandas' hash-table based counting before sorting. -/
def uniqueKeys {α : Type} [DecidableEq α] : List α → List α
  | [] => []
  | a :: l => a :: (uniqueKeys l).filter (fun b => b ≠ a)

/-- Comparison used to sort count pairs: larger counts first.  Ties keep the
underlying stable order (the claims do not depend on the tie order, which
pandas leaves unspecified). -/
def countDesc {α : Type} (p q : α × Nat) : Prop := q.2 ≤ p.2

instance {α : Type} : DecidableRel (countDesc (α := α)) :=
  fun p q => inferInstanceAs (Decidable (q.2 ≤ p.2))

instance {α : Type} : IsTotal (α × Nat) countDesc :=
  ⟨fun a b => (Nat.le_total b.2 a.2).imp id id⟩

instance {α : Type} : IsTrans (α × Nat) countDesc :=
  ⟨fun _ _ _ h1 h2 => Nat.le_trans h2 h1⟩

/-- `Series.value_counts()` on a column without missing values: pair each
distinct value with its frequency and sort by count descending. -/
def valueCounts {α : Type} [DecidableEq α] (l : List α) : List (α × Nat) :=
  List.insertionSort countDesc ((uniqueKeys l).map (fun k => (k, l.count k)))

/-- `Series.value_counts()` on a column that may hold missing values: the
default `dropna=True` silently discards `none` cells before counting. -/
def valueCountsOpt {α : Type} [DecidableEq α] (l : List (Option α)) : List (α × Nat) :=
  valueCounts (l.filterMap (fun x => x))

/-- The Genre Analysis aggregation: `df[df['primary_genre'].notna()]`, then
`value_counts` of the `primary_genre` column (lines 89-92 of `app.py`). -/
def genreCounts (df : List Title) : List (String × Nat) :=
  valueCountsOpt ((df.filter (fun t => t.primary_genre.isSome)).map Title.primary_genre)

/-- The Content Type Distribution aggregation: `df['type'].value_counts()`
(line 116 of `app.py`); `value_counts` itself drops missing cells. -/
def typeCounts (df : List Title) : List (String × Nat) :=
  valueCountsOpt (df.map Title.type)

/-- The Actors & Directors aggregation: filter the credits rows by the
selected role, `value_counts` of the names, keep the first 20 entries
(lines 215-222 of `app.py`). -/
def actorsCounts (df_credits : List Credit) (role : String) : List (String × Nat) :=
  (valueCounts ((df_credits.filter (fun r => r.role == role)).map Credit.name)).take 20

/-- The rows of `df[['imdb_score','imdb_votes','tmdb_score','tmdb_popularity']]
.dropna()` (lines 187-189 of `app.py`): rows complete in all four columns. -/
def numericRows (df : List Title) : List (ℚ × ℚ × ℚ × ℚ) :=
  df.filterMap (fun t =>
    match t.imdb_score, t.imdb_votes, t.tmdb_score, t.tmdb_popularity with
    | some a, some b, some c, some d => some (a, b, c, d)
    | _, _, _, _ => none)

/-- Projection of one of the four numeric columns out of a complete row, in
the fixed column order `imdb_score, imdb_votes, tmdb_score, tmdb_popularity`. -/
def colProj : Fin 4 → (ℚ × ℚ × ℚ × ℚ) → ℚ
  | ⟨0, _⟩ => fun r => r.1
  | ⟨1, _⟩ => fun r => r.2.1
  | ⟨2, _⟩ => fun r => r.2.2.1
  | ⟨3, _⟩ => fun r => r.2.2.2

/-- Column `i` of the dropna'd numeric sub-frame. -/
def col (df : List Title) (i : Fin 4) : List ℚ :=
  (numericRows df).map (colProj i)

/-- Arithmetic mean of a column (0 on an empty column, matching the
division-by-zero convention; pandas would give NaN there). -/
def mean (l : List ℚ) : ℚ := l.sum / l.length

/-- Sample covariance with `ddof = 1`, as pandas computes it: the sum of the
products of deviations divided by `n - 1`. -/
def cov (x y : List ℚ) : ℚ :=
  (List.zipWith (fun a b => (a - mean x) * (b - mean y)) x y).sum / ((x.length : ℚ) - 1)

/-- The Pearson correlation of two equal-length columns as `DataFrame.corr()`
computes it: covariance over the product of standard deviations.  Division by
zero (pandas: NaN) is 0 here. -/
noncomputable def corr (x y : List ℚ) : ℝ :=
  (cov x y : ℝ) / (Real.sqrt (cov x x) * Real.sqrt (cov y y))

/-- Entry `(i, j)` of the heatmap matrix `numeric_df.corr()` of the
Correlation Analysis branch (line 191 of `app.py`). -/
noncomputable def corrMatrix (df : List Title) (i j : Fin 4) : ℝ :=
  corr (col df i) (col df j)

/-- Snapshot of the two input files.  `pd.read_csv` either parses the file to
a table (`some`) or raises (missing file / parse failure, `none`). -/
structure FS where
  titles : Option (List Title)
  credits : Option (List Credit)

/-- The memoization cell of `@st.cache_data` for `load_data`, plus a counter
of physical file reads (to state that cache hits do not re-read storage). -/
structure CacheState where
  cached : Option (List Title × List Credit)
  reads : Nat
deriving DecidableEq

/-- `pd.read_csv("data/titles.csv")`: returns the parsed table or raises. -/
def readTitles (fs : FS) : Except Unit (List Title) :=
  match fs.titles with
  | some t => .ok t
  | none => .error ()

/-- `pd.read_csv("data/credits.csv")`: returns the parsed table or raises. -/
def readCredits (fs : FS) : Except Unit (List Credit) :=
  match fs.credits with
  | some c => .ok c
  | none => .error ()

/-- `load_data` under `@st.cache_data` (lines 36-44 of `app.py`): on a cache
hit return the memoized pair without touching storage; on a miss read both
files (each read counted), any failure propagating uncaught, and fill the
cache.  There is no retry, no fallback value, and no partial result. -/
def load_data (fs : FS) (s : CacheState) :
    Except Unit ((List Title × List Credit) × CacheState) :=
  match s.cached with
  | some v => .ok (v, s)
  | none =>
    match readTitles fs with
    | .error e => .error e
    | .ok df =>
      match readCredits fs with
      | .error e => .error e
      | .ok df_credits =>
        .ok ((df, df_credits), ⟨some (df, df_credits), s.reads + 2⟩)

/-- The eight sidebar options of the radio selector (lines 52-64 of `app.py`). -/
inductive AppSection where
  | datasetOverview
  | genreAnalysis
  | contentTypeDistribution
  | releaseYearAnalysis
  | ratingsPopularity
  | correlationAnalysis
  | actorsDirectors
  | conclusion
deriving DecidableEq, Repr

/-- What one render cycle hands to the rendering boundary, one constructor
per branch.  The correlation branch carries the dropna'd numeric rows from
which the chart's matrix `corrMatrix` is computed. -/
inductive Output where
  | overview (nrows : Nat) (head : List Title)
  | genreBar (data : List (String × Nat))
  | typeBar (data : List (String × Nat))
  | yearHist (years : List (Option Int)) (nbins : Nat)
  | scatters (imdb : List (Option ℚ × Option ℚ)) (tmdb : List (Option ℚ × Option ℚ))
  | heatmapData (rows : List (ℚ × ℚ × ℚ × ℚ))
  | roleBar (role : String) (data : List (String × Nat))
  | conclusionText
deriving DecidableEq

/-- The two loaded tables, shared read-only by every branch. -/
structure AppState where
  df : List Title
  df_credits : List Credit
deriving DecidableEq

/-- One render cycle of the dispatch (lines 69-239 of `app.py`): given the
selected section, the selected role (read only by the Actors & Directors
branch), and the loaded tables, produce the branch's output.  The table
state is threaded explicitly so that the frame property (no branch mutates
the loaded tables; filters and column renames act on derived copies) is a
statement, not a convention. -/
def runView (sec : AppSection) (role : String) (s : AppState) : Output × AppState :=
  match sec with
  | .datasetOverview => (.overview s.df.length (s.df.take 5), s)
  | .genreAnalysis => (.genreBar (genreCounts s.df), s)
  | .contentTypeDistribution => (.typeBar (typeCounts s.df), s)
  | .releaseYearAnalysis => (.yearHist (s.df.map Title.release_year) 30, s)
  | .ratingsPopularity =>
      (.scatters (s.df.map (fun t => (t.imdb_votes, t.imdb_score)))
                 (s.df.map (fun t => (t.tmdb_popularity, t.tmdb_score))), s)
  | .correlationAnalysis => (.heatmapData (numericRows s.df), s)
  | .actorsDirectors => (.roleBar role (actorsCounts s.df_credits role), s)
  | .conclusion => (.conclusionText, s)

/-! ### Counting lemmas: `uniqueKeys` and `valueCounts` -/

theorem mem_uniqueKeys {α : Type} [DecidableEq α] (b : α) :
    ∀ l : List α, b ∈ uniqueKeys l ↔ b ∈ l := by
  intro l
  induction l with
  | nil => simp [uniqueKeys]
  | cons a t ih =>
    by_cases h : b = a
    · subst h; simp [uniqueKeys]
    · simp [uniqueKeys, List.mem_filter, h, ih]

theorem nodup_uniqueKeys {α : Type} [DecidableEq α] :
    ∀ l : List α, (uniqueKeys l).Nodup := by
  intro l
  induction l with
  | nil => simp [uniqueKeys]
  | cons a t ih =>
    refine List.Nodup.cons ?_ (ih.filter _)
    intro hmem
    have := (List.mem_filter.mp hmem).2
    simp at this

theorem sum_map_filter_split {α : Type} (p : α → Bool) (f : α → Nat) :
    ∀ l : List α,
      ((l.filter p).map f).sum + ((l.filter (fun x => !p x)).map f).sum = (l.map f).sum := by
  intro l
  induction l with
  | nil => simp
  | cons a t ih =>
    by_cases h : p a <;> simp [h, ih.symm] <;> omega

theorem filter_eq_key_of_nodup {α : Type} [DecidableEq α] (a : α) :
    ∀ l : List α, l.Nodup → l.filter (fun b => b = a) = if a ∈ l then [a] else [] := by
  intro l
  induction l with
  | nil => simp
  | cons b t ih =>
    intro hnd
    obtain ⟨hb, hndt⟩ := List.nodup_cons.mp hnd
    by_cases hba : b = a
    · subst hba
      have hbt : b ∉ t := hb
      have hfilt : t.filter (fun c => c = b) = [] := by
        rw [ih hndt]
        simp [hbt]
      simp [List.filter_cons, hfilt]
    · have hmem : a ∈ b :: t ↔ a ∈ t := by
        constructor
        · intro h
          rcases List.mem_cons.mp h with h | h
          · exact absurd h.symm hba
          · exact h
        · exact List.mem_cons_of_mem b
      rw [List.filter_cons]
      simp only [hba, decide_eq_true_eq, if_neg]
      rw [ih hndt]
      by_cases ht : a ∈ t
      · simp [ht, hmem.mpr ht]
      · have hab : ¬a = b := fun h => hba h.symm
        simp [ht, hab]

theorem sum_counts {α : Type} [DecidableEq α] :
    ∀ l : List α, ((uniqueKeys l).map (fun k => l.count k)).sum = l.length := by
  intro l
  induction l with
  | nil => simp [uniqueKeys]
  | cons a t ih =>
    have hsplit := sum_map_filter_split (fun b => decide (b ≠ a)) (fun k => t.count k) (uniqueKeys t)
    have hnotnot : (uniqueKeys t).filter (fun x => !decide (x ≠ a)) =
        (uniqueKeys t).filter (fun b => b = a) := by
      apply List.filter_congr
      intro x _
      by_cases h : x = a <;> simp [h]
    have hkey := filter_eq_key_of_nodup a (uniqueKeys t) (nodup_uniqueKeys t)
    have hkey_sum : (((uniqueKeys t).filter (fun b => b = a)).map (fun k => t.count k)).sum
        = t.count a := by
      rw [hkey]
      by_cases hmem : a ∈ uniqueKeys t
      · simp [hmem]
      · have : a ∉ t := fun h => hmem ((mem_uniqueKeys a t).mpr h)
        simp [hmem, List.count_eq_zero.mpr this]
    have hcongr : (((uniqueKeys t).filter (fun b => b ≠ a)).map (fun k => (a :: t).count k))
        = ((uniqueKeys t).filter (fun b => b ≠ a)).map (fun k => t.count k) := by
      apply List.map_congr_left
      intro k hk
      have hne : k ≠ a := by simpa using (List.mem_filter.mp hk).2
      exact List.count_cons_of_ne hne t
    calc ((uniqueKeys (a :: t)).map (fun k => (a :: t).count k)).sum
        = (a :: t).count a
          + (((uniqueKeys t).filter (fun b => b ≠ a)).map (fun k => (a :: t).count k)).sum := by
          simp [uniqueKeys]
      _ = (t.count a + 1)
          + (((uniqueKeys t).filter (fun b => b ≠ a)).map (fun k => t.count k)).sum := by
          rw [hcongr, List.count_cons_self]
      _ = t.length + 1 := by
          rw [hnotnot, hkey_sum] at hsplit
          rw [ih] at hsplit
          omega
      _ = (a :: t).length := by simp

theorem sum_valueCounts {α : Type} [DecidableEq α] (l : List α) :
    ((valueCounts l).map Prod.snd).sum = l.length := by
  have hperm : List.Perm ((valueCounts l).map Prod.snd)
      (((uniqueKeys l).map (fun k => (k, l.count k))).map Prod.snd) :=
    (List.perm_insertionSort countDesc _).map Prod.snd
  rw [hperm.sum_eq, List.map_map]
  have : (Prod.snd ∘ fun k => (k, l.count k)) = fun k => l.count k := rfl
  rw [this, sum_counts]

theorem mem_valueCounts {α : Type} [DecidableEq α] {l : List α} {p : α × Nat}
    (hp : p ∈ valueCounts l) : p.1 ∈ l ∧ p.2 = l.count p.1 := by
  have : p ∈ (uniqueKeys l).map (fun k => (k, l.count k)) :=
    (List.mem_insertionSort countDesc).mp hp
  obtain ⟨k, hk, hkp⟩ := List.mem_map.mp this
  cases hkp
  exact ⟨(mem_uniqueKeys k l).mp hk, rfl⟩

theorem sorted_valueCounts {α : Type} [DecidableEq α] (l : List α) :
    List.Sorted countDesc (valueCounts l) :=
  List.sorted_insertionSort countDesc _

theorem length_filterMap_eq_length_filter {α β : Type} (f : α → Option β) :
    ∀ l : List α, (l.filterMap f).length = (l.filter (fun x => (f x).isSome)).length := by
  intro l
  induction l with
  | nil => rfl
  | cons a t ih =>
    rw [List.filterMap_cons, List.filter_cons]
    cases h : f a with
    | none => simpa [h] using ih
    | some b => simpa [h] using ih

/-- Claim C1: for every credits table and every selected role, the Actors &
Directors aggregation returns only names coming from rows whose role equals
the selected role, has at most 20 entries, and its counts are non-increasing. -/
theorem actors_filter_top20_sorted (df_credits : List Credit) (role : String) :
    (∀ p ∈ actorsCounts df_credits role,
        ∃ r ∈ df_credits, r.role = role ∧ r.name = p.1) ∧
    (actorsCounts df_credits role).length ≤ 20 ∧
    ((actorsCounts df_credits role).map Prod.snd).Pairwise (fun m n => n ≤ m) := by
  refine ⟨?_, ?_, ?_⟩
  · intro p hp
    have hmem : p ∈ valueCounts ((df_credits.filter (fun r => r.role == role)).map Credit.name) :=
      List.mem_of_mem_take hp
    have hname : p.1 ∈ (df_credits.filter (fun r => r.role == role)).map Credit.name :=
      (mem_valueCounts hmem).1
    obtain ⟨r, hr, hrname⟩ := List.mem_map.mp hname
    obtain ⟨hrc, hrole⟩ := List.mem_filter.mp hr
    exact ⟨r, hrc, by simpa using hrole, hrname⟩
  · exact List.length_take_le 20 _
  · have hs : List.Sorted countDesc (actorsCounts df_credits role) :=
      (sorted_valueCounts _).sublist (List.take_sublist 20 _)
    exact hs.map Prod.snd (fun a b h => h)

/-- Claim C1 witness: the general theorem applied to a one-row credits table. -/
theorem actors_filter_top20_sorted_witness :
    (∀ p ∈ actorsCounts [⟨"p1", "Alice", "ACTOR"⟩] "ACTOR",
        ∃ r ∈ [(⟨"p1", "Alice", "ACTOR"⟩ : Credit)], r.role = "ACTOR" ∧ r.name = p.1) ∧
    (actorsCounts [⟨"p1", "Alice", "ACTOR"⟩] "ACTOR").length ≤ 20 ∧
    ((actorsCounts [⟨"p1", "Alice", "ACTOR"⟩] "ACTOR").map Prod.snd).Pairwise
      (fun m n => n ≤ m) :=
  actors_filter_top20_sorted [⟨"p1", "Alice", "ACTOR"⟩] "ACTOR"

/-- Claim C2: the genre aggregation drops rows with an absent primary genre
and counts the rest grouped by genre: every key of the result is a genre
actually present in some row, and the counts sum to the number of rows with a
non-absent primary genre. -/
theorem genre_counts_drop_absent (df : List Title) :
    (∀ p ∈ genreCounts df, ∃ t ∈ df, t.primary_genre = some p.1) ∧
    ((genreCounts df).map Prod.snd).sum
      = (df.filter (fun t => t.primary_genre.isSome)).length := by
  constructor
  · intro p hp
    have hmem : p.1 ∈ ((df.filter (fun t => t.primary_genre.isSome)).map
        Title.primary_genre).filterMap (fun x => x) :=
      (mem_valueCounts hp).1
    rw [List.filterMap_map] at hmem
    obtain ⟨t, ht, htg⟩ := List.mem_filterMap.mp hmem
    exact ⟨t, (List.mem_filter.mp ht).1, htg⟩
  · rw [genreCounts, valueCountsOpt, sum_valueCounts, List.filterMap_map]
    rw [length_filterMap_eq_length_filter]
    congr 1
    apply List.filter_eq_self.mpr
    intro t ht
    have h2 := (List.mem_filter.mp ht).2
    simpa [Function.comp] using h2

/-- Claim C2 witness: the general theorem applied to a two-row titles table,
one row with an absent genre. -/
theorem genre_counts_drop_absent_witness :
    (∀ p ∈ genreCounts
        [⟨"t1", some "MOVIE", some "Drama", some 2000, none, none, none, none⟩,
         ⟨"t2", some "MOVIE", none, some 2001, none, none, none, none⟩],
      ∃ t ∈ [(⟨"t1", some "MOVIE", some "Drama", some 2000, none, none, none, none⟩ : Title),
             ⟨"t2", some "MOVIE", none, some 2001, none, none, none, none⟩],
        t.primary_genre = some p.1) ∧
    ((genreCounts
        [⟨"t1", some "MOVIE", some "Drama", some 2000, none, none, none, none⟩,
         ⟨"t2", some "MOVIE", none, some 2001, none, none, none, none⟩]).map Prod.snd).sum
      = ([(⟨"t1", some "MOVIE", some "Drama", some 2000, none, none, none, none⟩ : Title),
          ⟨"t2", some "MOVIE", none, some 2001, none, none, none, none⟩].filter
            (fun t => t.primary_genre.isSome)).length :=
  genre_counts_drop_absent _

/-- Claim C9: the Content Type Distribution silently excludes rows with a
missing type: every key of the result is a type value present in some row,
and the counts sum to the number of rows whose type is non-absent. -/
theorem type_counts_drop_absent (df : List Title) :
    (∀ p ∈ typeCounts df, ∃ t ∈ df, t.type = some p.1) ∧
    ((typeCounts df).map Prod.snd).sum = (df.filter (fun t => t.type.isSome)).length := by
  constructor
  · intro p hp
    have hmem : p.1 ∈ (df.map Title.type).filterMap (fun x => x) :=
      (mem_valueCounts hp).1
    rw [List.filterMap_map] at hmem
    obtain ⟨t, ht, htt⟩ := List.mem_filterMap.mp hmem
    exact ⟨t, ht, htt⟩
  · rw [typeCounts, valueCountsOpt, sum_valueCounts, List.filterMap_map]
    rw [length_filterMap_eq_length_filter]
    rfl

/-- Claim C9 witness: the general theorem applied to a two-row titles table,
one row with an absent type. -/
theorem type_counts_drop_absent_witness :
    (∀ p ∈ typeCounts
        [⟨"t1", some "MOVIE", none, none, none, none, none, none⟩,
         ⟨"t2", none, none, none, none, none, none, none⟩],
      ∃ t ∈ [(⟨"t1", some "MOVIE", none, none, none, none, none, none⟩ : Title),
             ⟨"t2", none, none, none, none, none, none, none⟩],
        t.type = some p.1) ∧
    ((typeCounts
        [⟨"t1", some "MOVIE", none, none, none, none, none, none⟩,
         ⟨"t2", none, none, none, none, none, none, none⟩]).map Prod.snd).sum
      = ([(⟨"t1", some "MOVIE", none, none, none, none, none, none⟩ : Title),
          ⟨"t2", none, none, none, none, none, none, none⟩].filter
            (fun t => t.type.isSome)).length :=
  type_counts_drop_absent _

/-- Claim C7: if filtering the credits table by the selected role leaves no
rows, the Actors & Directors aggregation is the empty list (`px.bar` then
renders an empty chart); the branch is a total function and raises nothing. -/
theorem actors_empty_when_no_role_rows (df_credits : List Credit) (role : String)
    (h : df_credits.filter (fun r => r.role == role) = []) :
    actorsCounts df_credits role = [] := by
  rw [actorsCounts, h]
  rfl

/-- Claim C7 witness: a credits table holding only a DIRECTOR row yields the
empty aggregation for role ACTOR. -/
theorem actors_empty_when_no_role_rows_witness :
    [(⟨"p1", "Bob", "DIRECTOR"⟩ : Credit)].filter (fun r => r.role == "ACTOR") = [] ∧
    actorsCounts [⟨"p1", "Bob", "DIRECTOR"⟩] "ACTOR" = [] :=
  ⟨by decide, actors_empty_when_no_role_rows [⟨"p1", "Bob", "DIRECTOR"⟩] "ACTOR" (by decide)⟩

/-- The credits table of the claim C8 scenario: one name (`X`) appearing
three times and 25 distinct names each appearing once, all with role ACTOR. -/
def scenarioCredits : List Credit :=
  [⟨"x", "X", "ACTOR"⟩, ⟨"x", "X", "ACTOR"⟩, ⟨"x", "X", "ACTOR"⟩,
   ⟨"a01", "A01", "ACTOR"⟩, ⟨"a02", "A02", "ACTOR"⟩, ⟨"a03", "A03", "ACTOR"⟩,
   ⟨"a04", "A04", "ACTOR"⟩, ⟨"a05", "A05", "ACTOR"⟩, ⟨"a06", "A06", "ACTOR"⟩,
   ⟨"a07", "A07", "ACTOR"⟩, ⟨"a08", "A08", "ACTOR"⟩, ⟨"a09", "A09", "ACTOR"⟩,
   ⟨"a10", "A10", "ACTOR"⟩, ⟨"a11", "A11", "ACTOR"⟩, ⟨"a12", "A12", "ACTOR"⟩,
   ⟨"a13", "A13", "ACTOR"⟩, ⟨"a14", "A14", "ACTOR"⟩, ⟨"a15", "A15", "ACTOR"⟩,
   ⟨"a16", "A16", "ACTOR"⟩, ⟨"a17", "A17", "ACTOR"⟩, ⟨"a18", "A18", "ACTOR"⟩,
   ⟨"a19", "A19", "ACTOR"⟩, ⟨"a20", "A20", "ACTOR"⟩, ⟨"a21", "A21", "ACTOR"⟩,
   ⟨"a22", "A22", "ACTOR"⟩, ⟨"a23", "A23", "ACTOR"⟩, ⟨"a24", "A24", "ACTOR"⟩,
   ⟨"a25", "A25", "ACTOR"⟩]

/-- Claim C8: on the scenario table (25 once-occurring actor names plus one
name occurring 3 times), selecting role ACTOR yields exactly 20 rows, the
3-count name first, followed by 19 of the once-occurring names (here the
first 19 in the counting routine's stable first-occurrence order). -/
theorem actors_scenario_top20 :
    actorsCounts scenarioCredits "ACTOR" =
      [("X", 3),
       ("A01", 1), ("A02", 1), ("A03", 1), ("A04", 1), ("A05", 1), ("A06", 1),
       ("A07", 1), ("A08", 1), ("A09", 1), ("A10", 1), ("A11", 1), ("A12", 1),
       ("A13", 1), ("A14", 1), ("A15", 1), ("A16", 1), ("A17", 1), ("A18", 1),
       ("A19", 1)] ∧
    (actorsCounts scenarioCredits "ACTOR").length = 20 := by
  constructor <;> decide

/-! ### Correlation matrix lemmas -/

theorem cov_comm (x y : List ℚ) (h : x.length = y.length) : cov x y = cov y x := by
  unfold cov
  rw [h, List.zipWith_comm]
  have hfun : (fun (b a : ℚ) => (a - mean x) * (b - mean y))
      = (fun (a b : ℚ) => (a - mean y) * (b - mean x)) := by
    funext u v
    ring
  rw [hfun]

theorem cov_self_nonneg (x : List ℚ) : 0 ≤ cov x x := by
  unfold cov
  rw [List.zipWith_same]
  cases x with
  | nil => norm_num
  | cons a t =>
    apply div_nonneg
    · apply List.sum_nonneg
      intro y hy
      obtain ⟨z, _, rfl⟩ := List.mem_map.mp hy
      exact mul_self_nonneg _
    · have h1 : (1 : ℚ) ≤ ((a :: t).length : ℚ) := by
        have : 1 ≤ (a :: t).length := Nat.succ_le_succ (Nat.zero_le _)
        exact_mod_cast this
      linarith

theorem corr_diag_one (x : List ℚ) (h : cov x x ≠ 0) : corr x x = 1 := by
  unfold corr
  rw [Real.mul_self_sqrt (by exact_mod_cast cov_self_nonneg x)]
  exact div_self (by exact_mod_cast h)

theorem corr_comm (x y : List ℚ) (h : x.length = y.length) : corr x y = corr y x := by
  unfold corr
  rw [cov_comm x y h, mul_comm]

/-- Claim C3 (amended): for every titles table the correlation matrix over
the four numeric columns (after dropping incomplete rows) is symmetric, and
every diagonal entry whose column has nonzero sample variance equals 1.  (As
stated the claim fails: on a degenerate column — fewer than two complete rows
or a constant column — pandas' diagonal entry is NaN, not 1.0; here the
division by zero yields 0.) -/
theorem corrMatrix_symm_and_diag_one (df : List Title) :
    (∀ i j, corrMatrix df i j = corrMatrix df j i) ∧
    (∀ i, cov (col df i) (col df i) ≠ 0 → corrMatrix df i i = 1) := by
  constructor
  · intro i j
    apply corr_comm
    simp [col]
  · intro i h
    exact corr_diag_one _ h

/-- The one-row titles table on which claim C3's diagonal part fails. -/
def singletonTitles : List Title :=
  [⟨"t1", some "MOVIE", some "Drama", some 2020, some 8, some 100, some 7, some 5⟩]

/-- Claim C3 counterexample: on a one-complete-row titles table the sample
variance of each column is a division by `n - 1 = 0` (pandas: NaN; here 0),
so the first diagonal entry of the correlation matrix is not 1. -/
theorem corrMatrix_diag_not_one_on_singleton :
    corrMatrix singletonTitles 0 0 ≠ 1 := by
  have hcol : col singletonTitles 0 = [8] := rfl
  have hcov : cov (col singletonTitles 0) (col singletonTitles 0) = 0 := by
    rw [hcol]
    simp [cov]
  have hzero : corrMatrix singletonTitles 0 0 = 0 := by
    unfold corrMatrix corr
    rw [hcov]
    norm_num
  rw [hzero]
  norm_num

/-- A titles table with two complete rows, distinct in every numeric column. -/
def twoRowTitles : List Title :=
  [⟨"t1", some "MOVIE", some "Drama", some 2020, some 8, some 100, some 7, some 5⟩,
   ⟨"t2", some "SHOW", some "Comedy", some 2021, some 6, some 50, some 5, some 3⟩]

/-- Claim C3 witness: on a two-row table whose first column has nonzero
sample variance, the amended theorem gives diagonal entry 1 (and symmetry). -/
theorem corrMatrix_symm_and_diag_one_witness :
    cov (col twoRowTitles 0) (col twoRowTitles 0) ≠ 0 ∧
    corrMatrix twoRowTitles 0 0 = 1 := by
  have hcol : col twoRowTitles 0 = [8, 6] := rfl
  have hne : cov (col twoRowTitles 0) (col twoRowTitles 0) ≠ 0 := by
    rw [hcol]
    norm_num [cov, mean]
  exact ⟨hne, (corrMatrix_symm_and_diag_one twoRowTitles).2 0 hne⟩

/-! ### Loader and dispatch claims -/

/-- Claim C4: within one process, every invocation of the memoized loader
after a first successful one returns the same pair of tables and leaves the
cache state (hence the file-read counter) unchanged: no re-read of storage. -/
theorem load_data_idempotent (fs : FS) (s s' : CacheState)
    (v : List Title × List Credit)
    (h : load_data fs s = .ok (v, s')) :
    load_data fs s' = .ok (v, s') := by
  unfold load_data at h
  split at h
  · cases h
    unfold load_data
    next heq => rw [heq]
  · split at h
    · cases h
    · split at h
      · cases h
      · cases h
        rfl

/-- Claim C4 witness: after a first load from a concrete file system, the
second call returns the identical value and state. -/
theorem load_data_idempotent_witness :
    load_data ⟨some [], some []⟩ ⟨some ([], []), 2⟩
      = .ok (([], []), ⟨some ([], []), 2⟩) :=
  load_data_idempotent ⟨some [], some []⟩ ⟨none, 0⟩ ⟨some ([], []), 2⟩ ([], []) rfl

/-- Claim C5: on a cold cache, if either input file is missing or malformed
the loader propagates the error (no retry, no partial or fallback result);
and whenever it returns normally, it returns exactly the two parsed tables. -/
theorem load_data_error_or_both_tables (fs : FS) (n : Nat) :
    ((fs.titles = none ∨ fs.credits = none) →
      load_data fs ⟨none, n⟩ = .error ()) ∧
    (∀ t c, fs.titles = some t → fs.credits = some c →
      load_data fs ⟨none, n⟩ = .ok ((t, c), ⟨some (t, c), n + 2⟩)) := by
  constructor
  · rintro (h | h) <;> cases hc : fs.titles <;> cases hk : fs.credits <;>
      simp_all [load_data, readTitles, readCredits]
  · intro t c ht hc
    simp [load_data, readTitles, readCredits, ht, hc]

/-- Claim C5 witness: with the titles file missing, the cold-cache load
fails; with both files present, it returns both tables. -/
theorem load_data_error_or_both_tables_witness :
    load_data ⟨none, some []⟩ ⟨none, 0⟩ = .error () ∧
    load_data ⟨some [], some []⟩ ⟨none, 0⟩ = .ok (([], []), ⟨some ([], []), 2⟩) :=
  ⟨(load_data_error_or_both_tables ⟨none, some []⟩ 0).1 (Or.inl rfl),
   (load_data_error_or_both_tables ⟨some [], some []⟩ 0).2 [] [] rfl rfl⟩

/-- Claim C6: no view branch mutates the loaded tables: every branch returns
the table state it received, all filtering, counting and renaming being done
on derived values. -/
theorem runView_preserves_tables (sec : AppSection) (role : String) (s : AppState) :
    (runView sec role s).2 = s := by
  cases sec <;> rfl

/-- Claim C10: the dispatch output is a function of the loaded tables and
the user selection alone: two executions over content-equal tables and the
same selection produce identical outputs. -/
theorem runView_deterministic (sec : AppSection) (role : String) (a b : AppState)
    (h1 : a.df = b.df) (h2 : a.df_credits = b.df_credits) :
    runView sec role a = runView sec role b := by
  have hab : a = b := by
    cases a
    cases b
    cases h1
    cases h2
    rfl
  rw [hab]

/-- Claim C10 witness: the determinism theorem at a concrete selection and a
concrete pair of content-equal states. -/
theorem runView_deterministic_witness :
    runView .genreAnalysis "ACTOR" ⟨[], []⟩ = runView .genreAnalysis "ACTOR" ⟨[], []⟩ :=
  runView_deterministic .genreAnalysis "ACTOR" ⟨[], []⟩ ⟨[], []⟩ rfl rfl
